import Mathlib

/-!
Shallow embedding of the raycasting selection/manipulation controller
(`Game` class, `src/index.ts` of the csc495-vr-f2022/raycasting repository).

The Babylon.js engine supplies geometry, picking, parenting and haptics; the
repository's own logic is the per-frame polling in `processControllerInput`,
the trigger handler `onRightTrigger` and the thumbstick handler
`onRightThumbstick`, together with the scene setup in `createScene`.  We embed
that logic over an explicit game state:

* Meshes are identified by natural numbers.  `createScene` makes, in order:
  the environment ground (id 0) and skybox (id 1), both with
  `isPickable = false`; the laser pointer line (id 2), `isPickable = false`;
  and 100 cubes (ids 3..102), pickable.
* `scene.pickWithRay` is the engine's ray cast: it receives the list of
  geometric ray/mesh intersections of this frame (mesh id, distance) —
  geometry is engine territory — and returns the nearest intersection whose
  mesh is pickable, as the engine does.
* `setParent` follows the engine contract (spec section 6): it changes the
  parent link while preserving the object's world transform, so re-parenting
  and un-parenting leave `worldPos` untouched.
* The TypeScript non-null assertion `component!.axes.y` on a possibly-missing
  component is modelled by setting a `crashed` flag: at runtime it throws a
  TypeError when `component` is `undefined`.
-/

/-- A 3-vector with rational coordinates (stands for Babylon's `Vector3`). -/
structure Vec3 where
  x : ℚ
  y : ℚ
  z : ℚ
deriving DecidableEq, Repr

def Vec3.add (a b : Vec3) : Vec3 := ⟨a.x + b.x, a.y + b.y, a.z + b.z⟩

def Vec3.smul (r : ℚ) (v : Vec3) : Vec3 := ⟨r * v.x, r * v.y, r * v.z⟩

/-- An RGB color (stands for Babylon's `Color3`). -/
structure Color3 where
  r : ℚ
  g : ℚ
  b : ℚ
deriving DecidableEq, Repr

def Color3.Yellow : Color3 := ⟨1, 1, 0⟩

def Color3.Green : Color3 := ⟨0, 1, 0⟩

def Color3.Blue : Color3 := ⟨0, 0, 1⟩

/-- The state of one mesh that the controller logic can observe or mutate:
its pickability flag, whether its edge outline is enabled
(`enableEdgesRendering` / `disableEdgesRendering`), whether it is currently
parented to the `selectionTransform` anchor, and its world position. -/
structure MeshState where
  isPickable : Bool
  edgesEnabled : Bool
  parentedToAnchor : Bool
  worldPos : Vec3
deriving DecidableEq, Repr

/-- The trigger component as the handler reads it: `pressed` and the
truthiness of `changes.pressed` (present exactly when the pressed state
changed this frame). -/
structure TriggerComp where
  pressed : Bool
  changesPressed : Bool
deriving DecidableEq, Repr

/-- The thumbstick component as the handler reads it: the `axes.y` value. -/
structure ThumbComp where
  axesY : ℚ
deriving DecidableEq, Repr

/-- A motion controller: its trigger and thumbstick components, each possibly
absent (`getComponent` returns `undefined` for a component the physical
controller does not have). -/
structure MotionController where
  trigger : Option TriggerComp
  thumb : Option ThumbComp
deriving DecidableEq, Repr

/-- An XR input source; its `motionController` may be undefined. -/
structure Controller where
  motionController : Option MotionController
deriving DecidableEq, Repr

/-- The per-frame input the engine hands to `update`: the right controller
(if any), the geometric ray/mesh intersections of the controller's forward
ray this frame, the elapsed frame time in milliseconds
(`engine.getDeltaTime()`), and the pointer's world forward direction
(`laserPointer.forward`). -/
structure FrameInput where
  rightController : Option Controller
  rayHits : List (Nat × ℚ)
  deltaTimeMs : ℚ
  pointerForward : Vec3

/-- The mutable program state of the `Game` class that the input handlers
touch, plus a log of emitted haptic pulses and a `crashed` flag recording an
uncaught TypeError. -/
structure GameState where
  selectedObject : Option Nat
  selectionTransformPos : Vec3
  laserPointerColor : Color3
  meshes : Nat → MeshState
  pulses : List (ℚ × ℚ)
  crashed : Bool

/-- Point update of the mesh table. -/
def updateMesh (f : Nat → MeshState) (m : Nat) (g : MeshState → MeshState) :
    Nat → MeshState :=
  fun i => if i = m then g (f i) else f i

/-- Mesh ids fixed by the creation order in `createScene`. -/
def groundId : Nat := 0

def skyboxId : Nat := 1

def laserPointerId : Nat := 2

/-- The scene as `createScene` leaves it: ground, skybox and laser pointer
are not pickable; the 100 cubes (ids 3..102) are pickable; no mesh has its
edge outline enabled (`edgesWidth` is set but `enableEdgesRendering` is never
called at creation); nothing is parented to the anchor.  Cube positions are
random, so world positions are a parameter. -/
def initMesh (pos : Nat → Vec3) (i : Nat) : MeshState :=
  { isPickable := decide (3 ≤ i) && decide (i ≤ 102)
    edgesEnabled := false
    parentedToAnchor := false
    worldPos := pos i }

/-- The `Game` state right after `createScene`: no selection, anchor at the
origin (a fresh `TransformNode`), laser pointer colored yellow
(`Color3.Yellow()`), no pulses, no crash. -/
def initState (pos : Nat → Vec3) : GameState :=
  { selectedObject := none
    selectionTransformPos := ⟨0, 0, 0⟩
    laserPointerColor := Color3.Yellow
    meshes := fun i => initMesh pos i
    pulses := []
    crashed := false }

/-- Nearest intersection in a list (smallest distance, earliest wins ties). -/
def nearestHit : List (Nat × ℚ) → Option (Nat × ℚ)
  | [] => none
  | p :: rest =>
    match nearestHit rest with
    | none => some p
    | some q => if p.2 ≤ q.2 then some p else some q

/-- `scene.pickWithRay`: among this frame's geometric ray intersections, the
nearest one whose mesh is pickable; `none` when no pickable mesh is hit. -/
def pickWithRay (s : GameState) (rayHits : List (Nat × ℚ)) :
    Option (Nat × ℚ) :=
  nearestHit (rayHits.filter fun p => (s.meshes p.1).isPickable)

/-- `this.rightController?.motionController?.pulse(0.2, 50)`: appends a pulse
record when the controller and its motion controller are present, otherwise
does nothing (optional chaining). -/
def emitPulse (ctrl : Option Controller) (ps : List (ℚ × ℚ)) :
    List (ℚ × ℚ) :=
  match ctrl.bind Controller.motionController with
  | none => ps
  | some _ => (1/5, 50) :: ps

/-- "Deselect the currently selected object" (source lines 256-261):
disable its edge outline and clear the reference. -/
def deselectCurrent (s : GameState) : GameState :=
  match s.selectedObject with
  | none => s
  | some prev =>
    { s with
      meshes := updateMesh s.meshes prev
        fun ms => { ms with edgesEnabled := false }
      selectedObject := none }

/-- "If an object was hit, select it" (source lines 263-275): store the hit
mesh, enable its edges, move the anchor to the hit distance along the ray,
re-parent the mesh under the anchor (world transform preserved), pulse. -/
def selectHit (ctrl : Option Controller) (m : Nat) (d : ℚ)
    (s : GameState) : GameState :=
  let s1 :=
    { s with
      selectedObject := some m
      meshes := updateMesh s.meshes m
        fun ms => { ms with edgesEnabled := true } }
  let s2 := { s1 with selectionTransformPos := ⟨0, 0, d⟩ }
  let s3 :=
    { s2 with
      meshes := updateMesh s2.meshes m
        fun ms => { ms with parentedToAnchor := true } }
  { s3 with pulses := emitPulse ctrl s3.pulses }

/-- The pressed branch of `onRightTrigger` (source lines 249-275): color the
pointer green, ray cast, deselect any previous selection, and select the hit
mesh when the cast reports one. -/
def triggerPress (ctrl : Option Controller) (rayHits : List (Nat × ℚ))
    (s : GameState) : GameState :=
  let s1 := { s with laserPointerColor := Color3.Green }
  match pickWithRay s1 rayHits with
  | none => deselectCurrent s1
  | some (m, d) => selectHit ctrl m d (deselectCurrent s1)

/-- The released branch of `onRightTrigger` (source lines 277-290): color
the pointer blue and, if an object is selected, un-parent it (world
transform preserved) and pulse. -/
def triggerRelease (ctrl : Option Controller) (s : GameState) : GameState :=
  let s1 := { s with laserPointerColor := Color3.Blue }
  match s1.selectedObject with
  | none => s1
  | some m =>
    let s2 :=
      { s1 with
        meshes := updateMesh s1.meshes m
          fun ms => { ms with parentedToAnchor := false } }
    { s2 with pulses := emitPulse ctrl s2.pulses }

/-- `onRightTrigger` (source lines 245-292): on a pressed-state change run
the pressed or released branch; otherwise do nothing. -/
def onRightTrigger (ctrl : Option Controller) (comp : Option TriggerComp)
    (rayHits : List (Nat × ℚ)) (s : GameState) : GameState :=
  match comp with
  | none => s
  | some c =>
    if c.changesPressed then
      if c.pressed then triggerPress ctrl rayHits s
      else triggerRelease ctrl s
    else s

/-- `onRightThumbstick` (source lines 295-309).  When an object is selected
and parented, compute `-component!.axes.y * (deltaTime / 1000) * 3` and
translate the object along the pointer's forward direction in world space.
The non-null assertion `component!` throws when the component is absent:
modelled by the `crashed` flag. -/
def onRightThumbstick (comp : Option ThumbComp) (deltaTimeMs : ℚ)
    (fwd : Vec3) (s : GameState) : GameState :=
  match s.selectedObject with
  | none => s
  | some m =>
    if (s.meshes m).parentedToAnchor then
      match comp with
      | none => { s with crashed := true }
      | some c =>
        let moveDistance := -c.axesY * (deltaTimeMs / 1000) * 3
        { s with
          meshes := updateMesh s.meshes m
            fun ms =>
              { ms with worldPos := ms.worldPos.add (Vec3.smul moveDistance fwd) } }
    else s

/-- `this.rightController?.motionController?.getComponent("xr-standard-trigger")`. -/
def getTrigger (ctrl : Option Controller) : Option TriggerComp :=
  (ctrl.bind Controller.motionController).bind MotionController.trigger

/-- `this.rightController?.motionController?.getComponent("xr-standard-thumbstick")`. -/
def getThumb (ctrl : Option Controller) : Option ThumbComp :=
  (ctrl.bind Controller.motionController).bind MotionController.thumb

/-- `processControllerInput` (source lines 235-242): trigger handler first,
then the thumbstick handler. -/
def processControllerInput (inp : FrameInput) (s : GameState) : GameState :=
  let s1 := onRightTrigger inp.rightController (getTrigger inp.rightController)
    inp.rayHits s
  onRightThumbstick (getThumb inp.rightController) inp.deltaTimeMs
    inp.pointerForward s1

/-- The per-frame `update`: polls controller input.  Once the program has
crashed (an uncaught exception escaped the render loop callback) no further
frames run. -/
def update (inp : FrameInput) (s : GameState) : GameState :=
  if s.crashed then s else processControllerInput inp s

/-- Running the render loop over a sequence of frame inputs. -/
def run (inps : List FrameInput) (s : GameState) : GameState :=
  inps.foldl (fun st i => update i st) s

/-- The trigger input constitutes a press edge. -/
def isPressEdge : Option TriggerComp → Bool
  | none => false
  | some c => c.changesPressed && c.pressed

/-- Concrete sample data used by witnesses and counterexamples. -/
def pos0 : Nat → Vec3 := fun _ => ⟨0, 0, 0⟩

/-- A frame whose press-edge ray hits cube 5 at distance 2. -/
def pressInp : FrameInput :=
  { rightController := some ⟨some ⟨some ⟨true, true⟩, some ⟨0⟩⟩⟩
    rayHits := [(5, 2)]
    deltaTimeMs := 16
    pointerForward := ⟨0, 0, 1⟩ }

/-- A frame whose press-edge ray hits nothing. -/
def pressMissInp : FrameInput :=
  { rightController := some ⟨some ⟨some ⟨true, true⟩, some ⟨0⟩⟩⟩
    rayHits := []
    deltaTimeMs := 16
    pointerForward := ⟨0, 0, 1⟩ }

/-- A release-edge frame. -/
def releaseInp : FrameInput :=
  { rightController := some ⟨some ⟨some ⟨false, true⟩, some ⟨0⟩⟩⟩
    rayHits := []
    deltaTimeMs := 16
    pointerForward := ⟨0, 0, 1⟩ }

/-- A frame in which the right controller is absent. -/
def noControllerInp : FrameInput :=
  { rightController := none
    rayHits := []
    deltaTimeMs := 16
    pointerForward := ⟨0, 0, 1⟩ }

/-! ### Basic lemmas about the state operations -/

theorem updateMesh_self (f : Nat → MeshState) (m : Nat)
    (g : MeshState → MeshState) : updateMesh f m g m = g (f m) := by
  simp [updateMesh]

theorem updateMesh_of_ne (f : Nat → MeshState) (m i : Nat)
    (g : MeshState → MeshState) (h : i ≠ m) : updateMesh f m g i = f i := by
  simp [updateMesh, h]

theorem Vec3.add_smul_zero (v w : Vec3) : v.add (Vec3.smul 0 w) = v := by
  simp [Vec3.add, Vec3.smul]

theorem Vec3.smul_congr (r r' : ℚ) (v : Vec3) (h : r = r') :
    Vec3.smul r v = Vec3.smul r' v := by rw [h]

/-- `(ctrl.bind Controller.motionController).isSome`: the optional chain
`this.rightController?.motionController?` reaches the motion controller. -/
def hasMotionController (ctrl : Option Controller) : Bool :=
  (ctrl.bind Controller.motionController).isSome

theorem emitPulse_of_hasMotionController (ctrl : Option Controller)
    (ps : List (ℚ × ℚ)) (h : hasMotionController ctrl = true) :
    emitPulse ctrl ps = (1/5, 50) :: ps := by
  unfold emitPulse
  unfold hasMotionController at h
  cases hmc : ctrl.bind Controller.motionController with
  | none => rw [hmc] at h; simp at h
  | some mc => rfl

/-! ### Field projections of the trigger sub-steps -/

theorem deselectCurrent_sel (s : GameState) :
    (deselectCurrent s).selectedObject = none := by
  unfold deselectCurrent
  cases h : s.selectedObject with
  | none => exact h
  | some prev => rfl

theorem deselectCurrent_color (s : GameState) :
    (deselectCurrent s).laserPointerColor = s.laserPointerColor := by
  unfold deselectCurrent
  cases h : s.selectedObject <;> rfl

theorem deselectCurrent_anchor (s : GameState) :
    (deselectCurrent s).selectionTransformPos = s.selectionTransformPos := by
  unfold deselectCurrent
  cases h : s.selectedObject <;> rfl

theorem deselectCurrent_pulses (s : GameState) :
    (deselectCurrent s).pulses = s.pulses := by
  unfold deselectCurrent
  cases h : s.selectedObject <;> rfl

theorem deselectCurrent_crashed (s : GameState) :
    (deselectCurrent s).crashed = s.crashed := by
  unfold deselectCurrent
  cases h : s.selectedObject <;> rfl

theorem deselectCurrent_isPickable (s : GameState) (i : Nat) :
    ((deselectCurrent s).meshes i).isPickable = (s.meshes i).isPickable := by
  unfold deselectCurrent
  cases h : s.selectedObject with
  | none => rfl
  | some prev =>
    by_cases him : i = prev
    · subst him; simp [updateMesh]
    · simp [updateMesh, him]

theorem deselectCurrent_parent (s : GameState) (i : Nat) :
    ((deselectCurrent s).meshes i).parentedToAnchor =
      (s.meshes i).parentedToAnchor := by
  unfold deselectCurrent
  cases h : s.selectedObject with
  | none => rfl
  | some prev =>
    by_cases him : i = prev
    · subst him; simp [updateMesh]
    · simp [updateMesh, him]

theorem deselectCurrent_worldPos (s : GameState) (i : Nat) :
    ((deselectCurrent s).meshes i).worldPos = (s.meshes i).worldPos := by
  unfold deselectCurrent
  cases h : s.selectedObject with
  | none => rfl
  | some prev =>
    by_cases him : i = prev
    · subst him; simp [updateMesh]
    · simp [updateMesh, him]

theorem deselectCurrent_edges_of_sel (s : GameState) (m : Nat)
    (h : s.selectedObject = some m) :
    ((deselectCurrent s).meshes m).edgesEnabled = false := by
  unfold deselectCurrent
  rw [h]
  simp [updateMesh]

theorem deselectCurrent_edges_of_ne (s : GameState) (i : Nat)
    (h : s.selectedObject ≠ some i) :
    ((deselectCurrent s).meshes i).edgesEnabled = (s.meshes i).edgesEnabled := by
  unfold deselectCurrent
  cases hs : s.selectedObject with
  | none => rfl
  | some prev =>
    have him : i ≠ prev := by
      intro he; exact h (he ▸ hs)
    simp [updateMesh, him]

theorem selectHit_sel (ctrl : Option Controller) (m : Nat) (d : ℚ)
    (s : GameState) : (selectHit ctrl m d s).selectedObject = some m := rfl

theorem selectHit_anchor (ctrl : Option Controller) (m : Nat) (d : ℚ)
    (s : GameState) :
    (selectHit ctrl m d s).selectionTransformPos = ⟨0, 0, d⟩ := rfl

theorem selectHit_color (ctrl : Option Controller) (m : Nat) (d : ℚ)
    (s : GameState) :
    (selectHit ctrl m d s).laserPointerColor = s.laserPointerColor := rfl

theorem selectHit_pulses (ctrl : Option Controller) (m : Nat) (d : ℚ)
    (s : GameState) :
    (selectHit ctrl m d s).pulses = emitPulse ctrl s.pulses := rfl

theorem selectHit_crashed (ctrl : Option Controller) (m : Nat) (d : ℚ)
    (s : GameState) : (selectHit ctrl m d s).crashed = s.crashed := rfl

theorem selectHit_meshes_self (ctrl : Option Controller) (m : Nat) (d : ℚ)
    (s : GameState) :
    (selectHit ctrl m d s).meshes m =
      { s.meshes m with edgesEnabled := true, parentedToAnchor := true } := by
  simp [selectHit, updateMesh]

theorem selectHit_meshes_of_ne (ctrl : Option Controller) (m i : Nat) (d : ℚ)
    (s : GameState) (h : i ≠ m) :
    (selectHit ctrl m d s).meshes i = s.meshes i := by
  simp [selectHit, updateMesh, h]

theorem triggerRelease_color (ctrl : Option Controller) (s : GameState) :
    (triggerRelease ctrl s).laserPointerColor = Color3.Blue := by
  unfold triggerRelease
  cases h : s.selectedObject <;> rfl

theorem triggerRelease_sel (ctrl : Option Controller) (s : GameState) :
    (triggerRelease ctrl s).selectedObject = s.selectedObject := by
  unfold triggerRelease
  cases h : s.selectedObject <;> rfl

theorem triggerRelease_anchor (ctrl : Option Controller) (s : GameState) :
    (triggerRelease ctrl s).selectionTransformPos =
      s.selectionTransformPos := by
  unfold triggerRelease
  cases h : s.selectedObject <;> rfl

theorem triggerRelease_crashed (ctrl : Option Controller) (s : GameState) :
    (triggerRelease ctrl s).crashed = s.crashed := by
  unfold triggerRelease
  cases h : s.selectedObject <;> rfl

theorem triggerRelease_edges (ctrl : Option Controller) (s : GameState)
    (i : Nat) :
    ((triggerRelease ctrl s).meshes i).edgesEnabled =
      (s.meshes i).edgesEnabled := by
  unfold triggerRelease
  cases h : s.selectedObject with
  | none => rfl
  | some m =>
    by_cases him : i = m
    · subst him; simp [updateMesh]
    · simp [updateMesh, him]

theorem triggerRelease_isPickable (ctrl : Option Controller) (s : GameState)
    (i : Nat) :
    ((triggerRelease ctrl s).meshes i).isPickable =
      (s.meshes i).isPickable := by
  unfold triggerRelease
  cases h : s.selectedObject with
  | none => rfl
  | some m =>
    by_cases him : i = m
    · subst him; simp [updateMesh]
    · simp [updateMesh, him]

theorem triggerRelease_worldPos (ctrl : Option Controller) (s : GameState)
    (i : Nat) :
    ((triggerRelease ctrl s).meshes i).worldPos = (s.meshes i).worldPos := by
  unfold triggerRelease
  cases h : s.selectedObject with
  | none => rfl
  | some m =>
    by_cases him : i = m
    · subst him; simp [updateMesh]
    · simp [updateMesh, him]

theorem triggerRelease_of_sel (ctrl : Option Controller) (s : GameState)
    (m : Nat) (h : s.selectedObject = some m) :
    ((triggerRelease ctrl s).meshes m).parentedToAnchor = false ∧
      (triggerRelease ctrl s).pulses = emitPulse ctrl s.pulses := by
  unfold triggerRelease
  rw [h]
  constructor
  · simp [updateMesh]
  · rfl

/-! ### Field projections of the thumbstick handler -/

theorem onRightThumbstick_sel (comp : Option ThumbComp) (dt : ℚ) (fwd : Vec3)
    (s : GameState) :
    (onRightThumbstick comp dt fwd s).selectedObject = s.selectedObject := by
  unfold onRightThumbstick
  split
  · rfl
  · split
    · cases comp <;> rfl
    · rfl

theorem onRightThumbstick_edges (comp : Option ThumbComp) (dt : ℚ)
    (fwd : Vec3) (s : GameState) (i : Nat) :
    ((onRightThumbstick comp dt fwd s).meshes i).edgesEnabled =
      (s.meshes i).edgesEnabled := by
  unfold onRightThumbstick
  split
  · rfl
  · rename_i m heq
    split
    · cases comp with
      | none => rfl
      | some c =>
        by_cases him : i = m
        · subst him; simp [updateMesh]
        · simp [updateMesh, him]
    · rfl

theorem onRightThumbstick_parent (comp : Option ThumbComp) (dt : ℚ)
    (fwd : Vec3) (s : GameState) (i : Nat) :
    ((onRightThumbstick comp dt fwd s).meshes i).parentedToAnchor =
      (s.meshes i).parentedToAnchor := by
  unfold onRightThumbstick
  split
  · rfl
  · rename_i m heq
    split
    · cases comp with
      | none => rfl
      | some c =>
        by_cases him : i = m
        · subst him; simp [updateMesh]
        · simp [updateMesh, him]
    · rfl

theorem onRightThumbstick_isPickable (comp : Option ThumbComp) (dt : ℚ)
    (fwd : Vec3) (s : GameState) (i : Nat) :
    ((onRightThumbstick comp dt fwd s).meshes i).isPickable =
      (s.meshes i).isPickable := by
  unfold onRightThumbstick
  split
  · rfl
  · rename_i m heq
    split
    · cases comp with
      | none => rfl
      | some c =>
        by_cases him : i = m
        · subst him; simp [updateMesh]
        · simp [updateMesh, him]
    · rfl

theorem onRightThumbstick_held_move (tc : ThumbComp) (dt : ℚ) (fwd : Vec3)
    (s : GameState) (m : Nat) (hsel : s.selectedObject = some m)
    (hp : (s.meshes m).parentedToAnchor = true) :
    ((onRightThumbstick (some tc) dt fwd s).meshes m).worldPos =
      ((s.meshes m).worldPos).add
        (Vec3.smul (-tc.axesY * (dt / 1000) * 3) fwd) := by
  unfold onRightThumbstick
  rw [hsel]
  simp only [hp, if_true]
  simp [updateMesh]

theorem onRightThumbstick_crash (dt : ℚ) (fwd : Vec3) (s : GameState)
    (m : Nat) (hsel : s.selectedObject = some m)
    (hp : (s.meshes m).parentedToAnchor = true) :
    (onRightThumbstick none dt fwd s).crashed = true := by
  unfold onRightThumbstick
  rw [hsel]
  simp only [hp, if_true]

/-! ### The single-selection invariant -/

/-- Every mesh whose edge outline is enabled is the selected object; since
the selection slot holds at most one reference, at most one mesh can be
highlighted. -/
def selInv (s : GameState) : Prop :=
  ∀ i, (s.meshes i).edgesEnabled = true → s.selectedObject = some i

theorem selInv_initState (pos : Nat → Vec3) : selInv (initState pos) := by
  intro i hi
  simp [initState, initMesh] at hi

theorem deselectCurrent_edges_off (s : GameState) (h : selInv s) (i : Nat) :
    ((deselectCurrent s).meshes i).edgesEnabled = false := by
  by_cases hsel : s.selectedObject = some i
  · exact deselectCurrent_edges_of_sel s i hsel
  · rw [deselectCurrent_edges_of_ne s i hsel]
    cases he : (s.meshes i).edgesEnabled with
    | false => rfl
    | true => exact absurd (h i he) hsel

/-- `triggerPress` with the pick result lifted out: the ray cast does not
depend on the pointer color. -/
theorem triggerPress_eq (ctrl : Option Controller) (rayHits : List (Nat × ℚ))
    (s : GameState) :
    triggerPress ctrl rayHits s =
      match pickWithRay s rayHits with
      | none => deselectCurrent { s with laserPointerColor := Color3.Green }
      | some (m, d) =>
        selectHit ctrl m d
          (deselectCurrent { s with laserPointerColor := Color3.Green }) := rfl

theorem selInv_triggerPress (ctrl : Option Controller)
    (rayHits : List (Nat × ℚ)) (s : GameState) (h : selInv s) :
    selInv (triggerPress ctrl rayHits s) := by
  have hg : selInv { s with laserPointerColor := Color3.Green } := h
  rw [triggerPress_eq]
  cases hpick : pickWithRay s rayHits with
  | none =>
    intro i hi
    rw [deselectCurrent_edges_off _ hg i] at hi
    cases hi
  | some md =>
    obtain ⟨m, d⟩ := md
    show selInv (selectHit ctrl m d
      (deselectCurrent { s with laserPointerColor := Color3.Green }))
    intro i hi
    by_cases him : i = m
    · subst him
      exact selectHit_sel ctrl i d _
    · rw [selectHit_meshes_of_ne ctrl m i d _ him,
        deselectCurrent_edges_off _ hg i] at hi
      cases hi

theorem selInv_triggerRelease (ctrl : Option Controller) (s : GameState)
    (h : selInv s) : selInv (triggerRelease ctrl s) := by
  intro i hi
  rw [triggerRelease_edges ctrl s i] at hi
  rw [triggerRelease_sel ctrl s]
  exact h i hi

theorem selInv_onRightTrigger (ctrl : Option Controller)
    (comp : Option TriggerComp) (rayHits : List (Nat × ℚ)) (s : GameState)
    (h : selInv s) : selInv (onRightTrigger ctrl comp rayHits s) := by
  unfold onRightTrigger
  cases comp with
  | none => exact h
  | some c =>
    by_cases hc : c.changesPressed = true
    · simp only [hc, if_true]
      by_cases hp : c.pressed = true
      · simp only [hp, if_true]
        exact selInv_triggerPress ctrl rayHits s h
      · simp only [hp, if_false]
        exact selInv_triggerRelease ctrl s h
    · simp only [hc, if_false]
      exact h

theorem selInv_onRightThumbstick (comp : Option ThumbComp) (dt : ℚ)
    (fwd : Vec3) (s : GameState) (h : selInv s) :
    selInv (onRightThumbstick comp dt fwd s) := by
  intro i hi
  rw [onRightThumbstick_edges comp dt fwd s i] at hi
  rw [onRightThumbstick_sel comp dt fwd s]
  exact h i hi

theorem selInv_update (inp : FrameInput) (s : GameState) (h : selInv s) :
    selInv (update inp s) := by
  unfold update
  by_cases hcr : s.crashed = true
  · simp only [hcr, if_true]; exact h
  · simp only [hcr, if_false]
    exact selInv_onRightThumbstick _ _ _ _
      (selInv_onRightTrigger _ _ _ _ h)

theorem selInv_run (inps : List FrameInput) (s : GameState) (h : selInv s) :
    selInv (run inps s) := by
  induction inps generalizing s with
  | nil => exact h
  | cons inp rest ih => exact ih (update inp s) (selInv_update inp s h)

/-! ### Reductions of the trigger handler -/

theorem onRightTrigger_press (ctrl : Option Controller) (c : TriggerComp)
    (rayHits : List (Nat × ℚ)) (s : GameState)
    (hc : c.changesPressed = true) (hp : c.pressed = true) :
    onRightTrigger ctrl (some c) rayHits s = triggerPress ctrl rayHits s := by
  show (if c.changesPressed = true then
      if c.pressed = true then triggerPress ctrl rayHits s
      else triggerRelease ctrl s
    else s) = triggerPress ctrl rayHits s
  rw [if_pos hc, if_pos hp]

theorem onRightTrigger_release (ctrl : Option Controller) (c : TriggerComp)
    (rayHits : List (Nat × ℚ)) (s : GameState)
    (hc : c.changesPressed = true) (hp : c.pressed = false) :
    onRightTrigger ctrl (some c) rayHits s = triggerRelease ctrl s := by
  show (if c.changesPressed = true then
      if c.pressed = true then triggerPress ctrl rayHits s
      else triggerRelease ctrl s
    else s) = triggerRelease ctrl s
  rw [if_pos hc, if_neg (by simp [hp])]

theorem onRightTrigger_sel_of_not_press (ctrl : Option Controller)
    (comp : Option TriggerComp) (rayHits : List (Nat × ℚ)) (s : GameState)
    (h : isPressEdge comp = false) :
    (onRightTrigger ctrl comp rayHits s).selectedObject =
      s.selectedObject := by
  cases comp with
  | none => rfl
  | some c =>
    simp only [isPressEdge] at h
    cases hcp : c.changesPressed with
    | false =>
      show (if c.changesPressed = true then
          if c.pressed = true then triggerPress ctrl rayHits s
          else triggerRelease ctrl s
        else s).selectedObject = s.selectedObject
      rw [if_neg (by simp [hcp])]
    | true =>
      rw [hcp, Bool.true_and] at h
      rw [onRightTrigger_release ctrl c rayHits s hcp h]
      exact triggerRelease_sel ctrl s

theorem onRightTrigger_edges_of_not_press (ctrl : Option Controller)
    (comp : Option TriggerComp) (rayHits : List (Nat × ℚ)) (s : GameState)
    (i : Nat) (h : isPressEdge comp = false) :
    ((onRightTrigger ctrl comp rayHits s).meshes i).edgesEnabled =
      (s.meshes i).edgesEnabled := by
  cases comp with
  | none => rfl
  | some c =>
    simp only [isPressEdge] at h
    cases hcp : c.changesPressed with
    | false =>
      show ((if c.changesPressed = true then
          if c.pressed = true then triggerPress ctrl rayHits s
          else triggerRelease ctrl s
        else s).meshes i).edgesEnabled = (s.meshes i).edgesEnabled
      rw [if_neg (by simp [hcp])]
    | true =>
      rw [hcp, Bool.true_and] at h
      rw [onRightTrigger_release ctrl c rayHits s hcp h]
      exact triggerRelease_edges ctrl s i

theorem selectHit_isPickable (ctrl : Option Controller) (m : Nat) (d : ℚ)
    (s : GameState) (i : Nat) :
    ((selectHit ctrl m d s).meshes i).isPickable =
      (s.meshes i).isPickable := by
  by_cases him : i = m
  · subst him
    rw [selectHit_meshes_self]
  · rw [selectHit_meshes_of_ne ctrl m i d s him]

theorem selectHit_worldPos (ctrl : Option Controller) (m : Nat) (d : ℚ)
    (s : GameState) (i : Nat) :
    ((selectHit ctrl m d s).meshes i).worldPos =
      (s.meshes i).worldPos := by
  by_cases him : i = m
  · subst him
    rw [selectHit_meshes_self]
  · rw [selectHit_meshes_of_ne ctrl m i d s him]

theorem onRightTrigger_isPickable (ctrl : Option Controller)
    (comp : Option TriggerComp) (rayHits : List (Nat × ℚ)) (s : GameState)
    (i : Nat) :
    ((onRightTrigger ctrl comp rayHits s).meshes i).isPickable =
      (s.meshes i).isPickable := by
  cases comp with
  | none => rfl
  | some c =>
    by_cases hc : c.changesPressed = true
    · by_cases hp : c.pressed = true
      · rw [onRightTrigger_press ctrl c rayHits s hc hp, triggerPress_eq]
        cases hpick : pickWithRay s rayHits with
        | none => exact deselectCurrent_isPickable _ i
        | some md =>
          obtain ⟨m, d⟩ := md
          show ((selectHit ctrl m d (deselectCurrent
            { s with laserPointerColor := Color3.Green })).meshes i).isPickable =
            (s.meshes i).isPickable
          rw [selectHit_isPickable, deselectCurrent_isPickable]
      · rw [onRightTrigger_release ctrl c rayHits s hc (by simpa using hp)]
        exact triggerRelease_isPickable ctrl s i
    · show ((if c.changesPressed = true then
          if c.pressed = true then triggerPress ctrl rayHits s
          else triggerRelease ctrl s
        else s).meshes i).isPickable = (s.meshes i).isPickable
      rw [if_neg hc]

theorem update_isPickable (inp : FrameInput) (s : GameState) (i : Nat) :
    ((update inp s).meshes i).isPickable = (s.meshes i).isPickable := by
  unfold update
  by_cases hcr : s.crashed = true
  · rw [if_pos hcr]
  · rw [if_neg hcr]
    unfold processControllerInput
    rw [onRightThumbstick_isPickable, onRightTrigger_isPickable]

theorem run_isPickable (inps : List FrameInput) (s : GameState) (i : Nat) :
    ((run inps s).meshes i).isPickable = (s.meshes i).isPickable := by
  induction inps generalizing s with
  | nil => rfl
  | cons inp rest ih =>
    show ((run rest (update inp s)).meshes i).isPickable = _
    rw [ih (update inp s), update_isPickable]

/-! ### The ray cast and non-pickable meshes -/

theorem pickWithRay_none_of_unpickable (s : GameState)
    (rayHits : List (Nat × ℚ))
    (h : ∀ p ∈ rayHits, (s.meshes p.1).isPickable = false) :
    pickWithRay s rayHits = none := by
  unfold pickWithRay
  have hf : rayHits.filter (fun p => (s.meshes p.1).isPickable) = [] := by
    rw [List.filter_eq_nil_iff]
    intro p hp
    simp [h p hp]
  rw [hf]
  rfl

theorem triggerPress_sel_none (ctrl : Option Controller)
    (rayHits : List (Nat × ℚ)) (s : GameState)
    (h : pickWithRay s rayHits = none) :
    (triggerPress ctrl rayHits s).selectedObject = none := by
  rw [triggerPress_eq, h]
  exact deselectCurrent_sel _

theorem onRightThumbstick_move_sec (a dt : ℚ) (fwd : Vec3) (s : GameState)
    (m : Nat) (hsel : s.selectedObject = some m)
    (hpar : (s.meshes m).parentedToAnchor = true) :
    ((onRightThumbstick (some ⟨a⟩) (1000 * dt) fwd s).meshes m).worldPos =
      ((s.meshes m).worldPos).add (Vec3.smul (-a * dt * 3) fwd) := by
  rw [onRightThumbstick_held_move ⟨a⟩ (1000 * dt) fwd s m hsel hpar]
  congr 1
  show Vec3.smul (-a * (1000 * dt / 1000) * 3) fwd = Vec3.smul (-a * dt * 3) fwd
  apply Vec3.smul_congr
  ring

/-! ### The claims -/

/-- Claim C1: for every sequence of frames, at most one object is selected
at any time: every mesh whose highlight outline is enabled is exactly the
object stored in the (single) selection slot, so no two distinct meshes are
ever highlighted simultaneously — a trigger press always disables the
previous selection's highlight and clears the reference before storing the
newly hit object. -/
theorem claim1_at_most_one_selected (pos : Nat → Vec3)
    (inps : List FrameInput) :
    (∀ i, ((run inps (initState pos)).meshes i).edgesEnabled = true →
      (run inps (initState pos)).selectedObject = some i) ∧
    ∀ i j, ((run inps (initState pos)).meshes i).edgesEnabled = true →
      ((run inps (initState pos)).meshes j).edgesEnabled = true → i = j := by
  have h : selInv (run inps (initState pos)) :=
    selInv_run inps (initState pos) (selInv_initState pos)
  refine ⟨h, fun i j hi hj => ?_⟩
  exact Option.some.inj ((h i hi).symm.trans (h j hj))

theorem claim1_witness :
    (run [pressInp] (initState pos0)).selectedObject = some 5 :=
  (claim1_at_most_one_selected pos0 [pressInp]).1 5 (by decide)

/-- Claim C2: on a trigger-press edge, if the ray cast from the controller
reports a hit with mesh m at distance d, then afterwards m is the selected
object, m's highlight outline is enabled, the anchor transform's local
offset is (0, 0, d), m is re-parented under the anchor, and a haptic pulse
is emitted. -/
theorem claim2_press_hit_selects (ctrl : Option Controller) (c : TriggerComp)
    (rayHits : List (Nat × ℚ)) (s : GameState) (m : Nat) (d : ℚ)
    (hmc : hasMotionController ctrl = true)
    (hc : c.changesPressed = true) (hp : c.pressed = true)
    (hpick : pickWithRay s rayHits = some (m, d)) :
    (onRightTrigger ctrl (some c) rayHits s).selectedObject = some m ∧
    ((onRightTrigger ctrl (some c) rayHits s).meshes m).edgesEnabled = true ∧
    (onRightTrigger ctrl (some c) rayHits s).selectionTransformPos =
      ⟨0, 0, d⟩ ∧
    ((onRightTrigger ctrl (some c) rayHits s).meshes m).parentedToAnchor =
      true ∧
    (onRightTrigger ctrl (some c) rayHits s).pulses = (1/5, 50) :: s.pulses := by
  rw [onRightTrigger_press ctrl c rayHits s hc hp, triggerPress_eq, hpick]
  have h2 := selectHit_meshes_self ctrl m d
    (deselectCurrent { s with laserPointerColor := Color3.Green })
  refine ⟨selectHit_sel ctrl m d _, ?_, selectHit_anchor ctrl m d _, ?_, ?_⟩
  · show ((selectHit ctrl m d (deselectCurrent
      { s with laserPointerColor := Color3.Green })).meshes m).edgesEnabled = true
    rw [h2]
  · show ((selectHit ctrl m d (deselectCurrent
      { s with laserPointerColor := Color3.Green })).meshes m).parentedToAnchor = true
    rw [h2]
  · show (selectHit ctrl m d (deselectCurrent
      { s with laserPointerColor := Color3.Green })).pulses = (1/5, 50) :: s.pulses
    rw [selectHit_pulses, deselectCurrent_pulses]
    exact emitPulse_of_hasMotionController ctrl s.pulses hmc

theorem claim2_witness :
    (onRightTrigger (some ⟨some ⟨some ⟨true, true⟩, some ⟨0⟩⟩⟩)
      (some ⟨true, true⟩) [(5, 2)] (initState pos0)).selectedObject =
      some 5 :=
  (claim2_press_hit_selects (some ⟨some ⟨some ⟨true, true⟩, some ⟨0⟩⟩⟩)
    ⟨true, true⟩ [(5, 2)] (initState pos0) 5 2 (by decide) rfl rfl
    (by decide)).1

/-- Claim C3: in every frame in which an object is held (selected and
parented to the anchor), a thumbstick with axis value a and elapsed frame
time dt seconds (the engine reports 1000·dt milliseconds) translates the
held object along the pointer's forward direction in world space by the
scalar -a · dt · 3 (speedConstant = 3); axis value 0 yields zero
displacement for any dt, and axis value 1 yields the displacement
-(3·dt) · forward, of magnitude 3·dt directed opposite the forward axis. -/
theorem claim3_thumbstick_reel (s : GameState) (m : Nat)
    (hsel : s.selectedObject = some m)
    (hpar : (s.meshes m).parentedToAnchor = true) :
    ∀ (a dt : ℚ) (fwd : Vec3),
      (((onRightThumbstick (some ⟨a⟩) (1000 * dt) fwd s).meshes m).worldPos =
        ((s.meshes m).worldPos).add (Vec3.smul (-a * dt * 3) fwd)) ∧
      (((onRightThumbstick (some ⟨0⟩) (1000 * dt) fwd s).meshes m).worldPos =
        (s.meshes m).worldPos) ∧
      ((onRightThumbstick (some ⟨1⟩) (1000 * dt) fwd s).meshes m).worldPos =
        ((s.meshes m).worldPos).add (Vec3.smul (-(3 * dt)) fwd) := by
  intro a dt fwd
  refine ⟨onRightThumbstick_move_sec a dt fwd s m hsel hpar, ?_, ?_⟩
  · rw [onRightThumbstick_move_sec 0 dt fwd s m hsel hpar,
      Vec3.smul_congr (-0 * dt * 3) 0 fwd (by ring)]
    exact Vec3.add_smul_zero _ _
  · rw [onRightThumbstick_move_sec 1 dt fwd s m hsel hpar]
    congr 1
    apply Vec3.smul_congr
    ring

theorem claim3_witness :
    ((onRightThumbstick (some ⟨2⟩) (1000 * (1/2)) ⟨0, 0, 1⟩
        (update pressInp (initState pos0))).meshes 5).worldPos =
      (((update pressInp (initState pos0)).meshes 5).worldPos).add
        (Vec3.smul (-2 * (1/2) * 3) ⟨0, 0, 1⟩) :=
  (claim3_thumbstick_reel (update pressInp (initState pos0)) 5 (by decide)
    (by decide) 2 (1/2) ⟨0, 0, 1⟩).1

/-- Claim C4: on a trigger-release edge while an object is held, the held
object is un-parented from the anchor with its world transform preserved,
and a haptic pulse is emitted. -/
theorem claim4_release_detaches (ctrl : Option Controller) (c : TriggerComp)
    (rayHits : List (Nat × ℚ)) (s : GameState) (m : Nat)
    (hmc : hasMotionController ctrl = true)
    (hc : c.changesPressed = true) (hp : c.pressed = false)
    (hsel : s.selectedObject = some m) :
    ((onRightTrigger ctrl (some c) rayHits s).meshes m).parentedToAnchor =
      false ∧
    ((onRightTrigger ctrl (some c) rayHits s).meshes m).worldPos =
      (s.meshes m).worldPos ∧
    (onRightTrigger ctrl (some c) rayHits s).pulses = (1/5, 50) :: s.pulses := by
  rw [onRightTrigger_release ctrl c rayHits s hc hp]
  obtain ⟨hpar, hpul⟩ := triggerRelease_of_sel ctrl s m hsel
  refine ⟨hpar, triggerRelease_worldPos ctrl s m, ?_⟩
  rw [hpul]
  exact emitPulse_of_hasMotionController ctrl s.pulses hmc

theorem claim4_witness :
    ((onRightTrigger (some ⟨some ⟨some ⟨false, true⟩, some ⟨0⟩⟩⟩)
        (some ⟨false, true⟩) [] (update pressInp (initState pos0))).meshes
        5).parentedToAnchor = false :=
  (claim4_release_detaches (some ⟨some ⟨some ⟨false, true⟩, some ⟨0⟩⟩⟩)
    ⟨false, true⟩ [] (update pressInp (initState pos0)) 5 (by decide) rfl
    rfl (by decide)).1

/-- Claim C5 (code bug): the frame input processing is not crash-free when
references are missing.  With an object held (selected and parented to the
anchor), a frame in which the right controller — and hence its thumbstick
component — is unavailable makes the thumbstick handler dereference the
missing component (`component!.axes.y` on `undefined`), throwing instead of
silently skipping.  The trigger path of the same frame is skipped safely. -/
theorem claim5_missing_component_crash :
    (update pressInp (initState pos0)).crashed = false ∧
    (update pressInp (initState pos0)).selectedObject = some 5 ∧
    ((update pressInp (initState pos0)).meshes 5).parentedToAnchor = true ∧
    (update noControllerInp (update pressInp (initState pos0))).crashed =
      true := by decide

/-- Claim C6 counterexample: a trigger-release edge with nothing selected is
not a no-op on all program state — the pointer visual's color changes
(green after a missed press, blue after the release). -/
theorem claim6_counterexample :
    (update pressMissInp (initState pos0)).selectedObject = none ∧
    (update releaseInp
        (update pressMissInp (initState pos0))).laserPointerColor ≠
      (update pressMissInp (initState pos0)).laserPointerColor := by decide

theorem triggerRelease_of_none (ctrl : Option Controller) (s : GameState)
    (h : s.selectedObject = none) :
    triggerRelease ctrl s = { s with laserPointerColor := Color3.Blue } := by
  unfold triggerRelease
  rw [h]

/-- Claim C6 (amended): on a trigger-release edge with no selected object,
the selection reference, every mesh's state (parent, highlight, position,
pickability), the pulse log, the anchor and the crash flag are unchanged;
the only effect is on the pointer visual, whose color is set to the fixed
release color blue. -/
theorem claim6_release_noop_except_color (ctrl : Option Controller)
    (c : TriggerComp) (rayHits : List (Nat × ℚ)) (s : GameState)
    (hc : c.changesPressed = true) (hp : c.pressed = false)
    (hsel : s.selectedObject = none) :
    (onRightTrigger ctrl (some c) rayHits s).selectedObject = none ∧
    (onRightTrigger ctrl (some c) rayHits s).meshes = s.meshes ∧
    (onRightTrigger ctrl (some c) rayHits s).pulses = s.pulses ∧
    (onRightTrigger ctrl (some c) rayHits s).selectionTransformPos =
      s.selectionTransformPos ∧
    (onRightTrigger ctrl (some c) rayHits s).crashed = s.crashed ∧
    (onRightTrigger ctrl (some c) rayHits s).laserPointerColor =
      Color3.Blue := by
  rw [onRightTrigger_release ctrl c rayHits s hc hp,
    triggerRelease_of_none ctrl s hsel]
  exact ⟨hsel, rfl, rfl, rfl, rfl, rfl⟩

theorem claim6_witness :
    (onRightTrigger (some ⟨some ⟨some ⟨false, true⟩, some ⟨0⟩⟩⟩)
      (some ⟨false, true⟩) []
      (update pressMissInp (initState pos0))).laserPointerColor =
      Color3.Blue :=
  (claim6_release_noop_except_color
    (some ⟨some ⟨some ⟨false, true⟩, some ⟨0⟩⟩⟩) ⟨false, true⟩ []
    (update pressMissInp (initState pos0)) rfl rfl (by decide)).2.2.2.2.2

/-- Claim C7 counterexample: after a press-then-release sequence the pointer
color does not equal its initial idle color: the pointer is created yellow,
but the release edge sets it to blue. -/
theorem claim7_counterexample :
    (initState pos0).laserPointerColor = Color3.Yellow ∧
    (update releaseInp (update pressInp (initState pos0))).laserPointerColor =
      Color3.Blue ∧
    (update releaseInp (update pressInp (initState pos0))).laserPointerColor ≠
      (initState pos0).laserPointerColor := by decide

/-- Claim C7 (amended): on a trigger-release edge the pointer color is set
to the fixed release color blue; this differs from the initial idle color,
which is yellow (the color the pointer is created with before any press),
so after a press-then-release the pointer is not back to its initial
color. -/
theorem claim7_release_color_blue (pos : Nat → Vec3)
    (ctrl : Option Controller) (c : TriggerComp)
    (rayHits : List (Nat × ℚ)) (s : GameState)
    (hc : c.changesPressed = true) (hp : c.pressed = false) :
    (onRightTrigger ctrl (some c) rayHits s).laserPointerColor =
      Color3.Blue ∧
    (initState pos).laserPointerColor = Color3.Yellow ∧
    Color3.Blue ≠ Color3.Yellow := by
  rw [onRightTrigger_release ctrl c rayHits s hc hp]
  exact ⟨triggerRelease_color ctrl s, rfl, by decide⟩

theorem claim7_witness :
    (onRightTrigger (some ⟨some ⟨some ⟨false, true⟩, some ⟨0⟩⟩⟩)
      (some ⟨false, true⟩) [] (initState pos0)).laserPointerColor =
      Color3.Blue :=
  (claim7_release_color_blue pos0
    (some ⟨some ⟨some ⟨false, true⟩, some ⟨0⟩⟩⟩) ⟨false, true⟩ []
    (initState pos0) rfl rfl).1

/-- Claim C8: within a frame, trigger handling is evaluated before
thumbstick handling: a frame whose press edge hits mesh m and whose
thumbstick reports axis value tc acts on the newly grabbed m — after the
frame, m is selected, parented to the anchor, and already displaced by the
thumbstick's frame-time-scaled amount. -/
theorem claim8_trigger_before_thumbstick (inp : FrameInput) (s : GameState)
    (c : TriggerComp) (tc : ThumbComp) (m : Nat) (d : ℚ)
    (hcr : s.crashed = false)
    (htr : getTrigger inp.rightController = some c)
    (hth : getThumb inp.rightController = some tc)
    (hc : c.changesPressed = true) (hp : c.pressed = true)
    (hpick : pickWithRay s inp.rayHits = some (m, d)) :
    (update inp s).selectedObject = some m ∧
    ((update inp s).meshes m).parentedToAnchor = true ∧
    ((update inp s).meshes m).worldPos =
      ((s.meshes m).worldPos).add
        (Vec3.smul (-tc.axesY * (inp.deltaTimeMs / 1000) * 3)
          inp.pointerForward) := by
  unfold update
  rw [if_neg (by simp [hcr])]
  unfold processControllerInput
  rw [htr, hth]
  have e1 : onRightTrigger inp.rightController (some c) inp.rayHits s =
      selectHit inp.rightController m d
        (deselectCurrent { s with laserPointerColor := Color3.Green }) := by
    rw [onRightTrigger_press inp.rightController c inp.rayHits s hc hp,
      triggerPress_eq, hpick]
  have hsel1 : (onRightTrigger inp.rightController (some c)
      inp.rayHits s).selectedObject = some m := by
    rw [e1]
    exact selectHit_sel _ _ _ _
  have hpar1 : ((onRightTrigger inp.rightController (some c)
      inp.rayHits s).meshes m).parentedToAnchor = true := by
    rw [e1, selectHit_meshes_self]
  have hwp1 : ((onRightTrigger inp.rightController (some c)
      inp.rayHits s).meshes m).worldPos = (s.meshes m).worldPos := by
    rw [e1, selectHit_worldPos, deselectCurrent_worldPos]
  refine ⟨?_, ?_, ?_⟩
  · rw [onRightThumbstick_sel]
    exact hsel1
  · rw [onRightThumbstick_parent]
    exact hpar1
  · rw [onRightThumbstick_held_move tc inp.deltaTimeMs inp.pointerForward _
      m hsel1 hpar1, hwp1]

theorem claim8_witness :
    (update pressInp (initState pos0)).selectedObject = some 5 :=
  (claim8_trigger_before_thumbstick pressInp (initState pos0) ⟨true, true⟩
    ⟨0⟩ 5 2 rfl rfl rfl rfl rfl (by decide)).1

/-- Claim C9: a trigger release does not clear the selection: after any
frame without a press edge (in particular a release edge) the previously
selected object is still stored and its highlight unchanged; the selection
reference and the old highlight are cleared by the next press edge whether
it hits nothing (reference becomes none) or a different object (reference
moves to it, old highlight disabled). -/
theorem claim9_release_keeps_selection (s : GameState) (m : Nat)
    (hcr : s.crashed = false) (hsel : s.selectedObject = some m) :
    (∀ inp : FrameInput,
      isPressEdge (getTrigger inp.rightController) = false →
      (update inp s).selectedObject = some m ∧
      ((update inp s).meshes m).edgesEnabled =
        (s.meshes m).edgesEnabled) ∧
    (∀ (ctrl : Option Controller) (c : TriggerComp)
      (rayHits : List (Nat × ℚ)),
      c.changesPressed = true → c.pressed = true →
      pickWithRay s rayHits = none →
      (onRightTrigger ctrl (some c) rayHits s).selectedObject = none ∧
      ((onRightTrigger ctrl (some c) rayHits s).meshes m).edgesEnabled =
        false) ∧
    ∀ (ctrl : Option Controller) (c : TriggerComp)
      (rayHits : List (Nat × ℚ)) (m' : Nat) (d : ℚ),
      c.changesPressed = true → c.pressed = true →
      pickWithRay s rayHits = some (m', d) → m' ≠ m →
      (onRightTrigger ctrl (some c) rayHits s).selectedObject = some m' ∧
      ((onRightTrigger ctrl (some c) rayHits s).meshes m).edgesEnabled =
        false := by
  refine ⟨?_, ?_, ?_⟩
  · intro inp hnp
    unfold update
    rw [if_neg (by simp [hcr])]
    unfold processControllerInput
    constructor
    · rw [onRightThumbstick_sel,
        onRightTrigger_sel_of_not_press _ _ _ _ hnp]
      exact hsel
    · rw [onRightThumbstick_edges,
        onRightTrigger_edges_of_not_press _ _ _ _ _ hnp]
  · intro ctrl c rayHits hc hp hpick
    rw [onRightTrigger_press ctrl c rayHits s hc hp]
    constructor
    · exact triggerPress_sel_none ctrl rayHits s hpick
    · rw [triggerPress_eq, hpick]
      exact deselectCurrent_edges_of_sel
        { s with laserPointerColor := Color3.Green } m hsel
  · intro ctrl c rayHits m' d hc hp hpick hm
    rw [onRightTrigger_press ctrl c rayHits s hc hp, triggerPress_eq, hpick]
    constructor
    · exact selectHit_sel ctrl m' d _
    · show ((selectHit ctrl m' d (deselectCurrent
        { s with laserPointerColor := Color3.Green })).meshes
        m).edgesEnabled = false
      rw [selectHit_meshes_of_ne ctrl m' m d _ (Ne.symm hm)]
      exact deselectCurrent_edges_of_sel
        { s with laserPointerColor := Color3.Green } m hsel

theorem claim9_witness :
    (update releaseInp (update pressInp (initState pos0))).selectedObject =
      some 5 :=
  ((claim9_release_keeps_selection (update pressInp (initState pos0)) 5
    (by decide) (by decide)).1 releaseInp (by decide)).1

/-- Claim C10: the ground, the skybox and the laser pointer line are created
non-pickable and remain so in every reachable state, so they can never be
selected: a trigger press whose ray intersects only these meshes gets no
pick result and leaves nothing selected. -/
theorem claim10_nonpickable_not_selectable (pos : Nat → Vec3)
    (inps : List FrameInput) (rayHits : List (Nat × ℚ))
    (honly : ∀ p ∈ rayHits,
      p.1 = groundId ∨ p.1 = skyboxId ∨ p.1 = laserPointerId) :
    ((run inps (initState pos)).meshes groundId).isPickable = false ∧
    ((run inps (initState pos)).meshes skyboxId).isPickable = false ∧
    ((run inps (initState pos)).meshes laserPointerId).isPickable = false ∧
    pickWithRay (run inps (initState pos)) rayHits = none ∧
    ∀ (ctrl : Option Controller) (c : TriggerComp),
      c.changesPressed = true → c.pressed = true →
      (onRightTrigger ctrl (some c) rayHits
        (run inps (initState pos))).selectedObject = none := by
  have hg : ((run inps (initState pos)).meshes groundId).isPickable =
      false := by
    rw [run_isPickable]
    rfl
  have hs : ((run inps (initState pos)).meshes skyboxId).isPickable =
      false := by
    rw [run_isPickable]
    rfl
  have hl : ((run inps (initState pos)).meshes laserPointerId).isPickable =
      false := by
    rw [run_isPickable]
    rfl
  have hnone : pickWithRay (run inps (initState pos)) rayHits = none := by
    apply pickWithRay_none_of_unpickable
    intro p hp
    rcases honly p hp with h | h | h
    · rw [h]; exact hg
    · rw [h]; exact hs
    · rw [h]; exact hl
  refine ⟨hg, hs, hl, hnone, ?_⟩
  intro ctrl c hc hp
  rw [onRightTrigger_press ctrl c rayHits _ hc hp]
  exact triggerPress_sel_none ctrl rayHits _ hnone

theorem claim10_witness :
    pickWithRay (run [] (initState pos0)) [(0, 1)] = none :=
  (claim10_nonpickable_not_selectable pos0 [] [(0, 1)]
    (by decide)).2.2.2.1
